import Mathlib

/-!
# Verification of the `controls` mapper contract

Shallow embedding of the repository's two quickstart mappers
(`mappers/detail.py`, `mappers/display.py`) and of the relevant parts of
its pytest harness (`testing/mappers/test_detail.py`,
`testing/mappers/test_display.py`, `testing/mappers/conftest.py`).

Python values flowing through the mappers are JSON-like: `None`, booleans,
numbers, strings, lists and dicts.  Dicts are modelled as association
lists; numbers are modelled as integers (every fixture in the repository
uses integral numbers only).
-/

/-- A Python/JSON value as passed between the host and a control's mappers. -/
inductive Json where
  | null
  | bool (b : Bool)
  | num (n : Int)
  | str (s : String)
  | arr (xs : List Json)
  | obj (kvs : List (String × Json))

/-- Python exceptions that the mappers can raise. -/
inductive PyErr where
  | attributeError (receiverType : String)
  | typeError (msg : String)
deriving DecidableEq

/-- Python `type(v).__name__` for the modelled values. -/
def typeName : Json → String
  | .null => "NoneType"
  | .bool _ => "bool"
  | .num _ => "int"
  | .str _ => "str"
  | .arr _ => "list"
  | .obj _ => "dict"

def detailKey : String := "detail"
def checkPassedKey : String := "check_passed"
def passedKey : String := "passed"
def descriptionKey : String := "description"
def tagKey : String := "tag"
def summaryKey : String := "summary"

/-- Python `v.get(k, default)`: succeeds on a dict, raises `AttributeError`
on every other receiver (no other modelled type has a `get` attribute). -/
def dictGet (v : Json) (k : String) (default : Json) : Except PyErr Json :=
  match v with
  | .obj kvs => .ok ((kvs.lookup k).getD default)
  | other => .error (.attributeError (typeName other))

/-- The single-quote character, used by Python `repr` for strings. -/
def squote : String := String.singleton (Char.ofNat 39)

/-- Python `", ".join(parts)`. -/
def joinComma : List String → String
  | [] => ""
  | [s] => s
  | s :: rest => s ++ ", " ++ joinComma rest

mutual
/-- Python `repr(v)` for the modelled values (strings are rendered with
single quotes; escaping inside strings is not modelled, no claim depends
on the rendering of container values). -/
def pyRepr : Json → String
  | .null => "None"
  | .bool true => "True"
  | .bool false => "False"
  | .num n => toString n
  | .str s => squote ++ s ++ squote
  | .arr xs => "[" ++ joinComma (pyReprList xs) ++ "]"
  | .obj kvs => "\x7b" ++ joinComma (pyReprObj kvs) ++ "\x7d"

def pyReprList : List Json → List String
  | [] => []
  | x :: xs => pyRepr x :: pyReprList xs

def pyReprObj : List (String × Json) → List String
  | [] => []
  | (k, v) :: kvs => (squote ++ k ++ squote ++ ": " ++ pyRepr v) :: pyReprObj kvs
end

/-- Python `str(v)` (as used by an f-string): like `repr` except that a
top-level string is rendered without quotes. -/
def pyStr : Json → String
  | .str s => s
  | v => pyRepr v

namespace Detail

/-- `mappers/detail.py` `main(occurrence, context)`:
`detail = occurrence.get('detail', {})`;
`value = detail.get('check_passed', False)`;
`return {'passed': value}`. -/
def main (occurrence context : Json) : Except PyErr Json :=
  match dictGet occurrence detailKey (.obj []) with
  | .error e => .error e
  | .ok detail =>
    match dictGet detail checkPassedKey (.bool false) with
    | .error e => .error e
    | .ok value => .ok (.obj [(passedKey, value)])

end Detail

/-- The constant description string returned by `mappers/display.py`. -/
def displayDescription : String :=
  "A simple boolean check - the most minimal control possible"

namespace Display

/-- `mappers/display.py` `main(occurrence, attestation, context)`:
`detail = occurrence.get('detail', {})`;
`passed = detail.get('passed', False)`;
returns the constant description and the tag `f'Value: {passed}'`. -/
def main (occurrence attestation context : Json) : Except PyErr Json :=
  match dictGet occurrence detailKey (.obj []) with
  | .error e => .error e
  | .ok detail =>
    match dictGet detail passedKey (.bool false) with
    | .error e => .error e
    | .ok passed =>
      .ok (.obj [(descriptionKey, .str displayDescription),
                 (tagKey, .str ("Value: " ++ pyStr passed))])

end Display

/-- Python `isinstance(v, dict)`. -/
def isDict : Json → Bool
  | .obj _ => true
  | _ => false

/-- Python `k in d` for a dict value (`false` on non-dicts). -/
def hasKey (v : Json) (k : String) : Bool :=
  match v with
  | .obj kvs => (kvs.lookup k).isSome
  | _ => false

/-- The key list of a dict value, in binding order. -/
def objKeys : Json → List String
  | .obj kvs => kvs.map Prod.fst
  | _ => []

/-- The `empty_occurrence` fixture of `test_detail.py`: an occurrence with
an empty `detail` mapping. -/
def empty_occurrence : Json :=
  .obj [("asset", .obj [("key", .str ("org/repo")), ("name", .str ("repo"))]),
        (detailKey, .obj []),
        ("status", .str ("complete")),
        ("type", .str ("occurrence"))]

/-- The `malformed_occurrence` fixture of `test_detail.py`: null `asset`
and a `detail` mapping whose `scan` is null. -/
def malformed_occurrence : Json :=
  .obj [("asset", .null),
        (detailKey, .obj [("scan", .null)]),
        ("status", .str ("complete")),
        ("type", .str ("occurrence"))]

/-- The occurrence built inline by
`TestEdgeCases.test_handles_missing_detail_field`: no `detail` key. -/
def occurrence_no_detail : Json :=
  .obj [("asset", .obj [("key", .str ("test"))])]

/-- The fallback `sample_occurrence` fixture of `test_detail.py` (used when
no payload file exists on disk). -/
def sample_occurrence : Json :=
  .obj [("asset", .obj [("key", .str ("org/repo")), ("name", .str ("repo"))]),
        (detailKey, .obj [("scan", .obj [("results", .arr [])])]),
        ("status", .str ("complete")),
        ("type", .str ("occurrence"))]

/-- `TestOutputStructure.test_returns_summary_field` for one occurrence:
run the detail mapper with an empty context and check that the result
contains a `summary` key (`false` also when the mapper raises). -/
def summaryFieldCheck (occurrence : Json) : Bool :=
  match Detail.main occurrence (.obj []) with
  | .ok result => hasKey result summaryKey
  | .error _ => false

/-- Python `{**payload, 'detail': mapped}` on a dict's bindings: replace
the binding of the key in place, or append it when absent. -/
def setKey : List (String × Json) → String → Json → List (String × Json)
  | [], k, v => [(k, v)]
  | (k1, v1) :: rest, k, v =>
    if k1 == k then (k1, v) :: rest else (k1, v1) :: setKey rest k v

/-- `TestWithRealData.test_all_payloads_process_successfully`: iterate the
discovered payloads in order; run the detail mapper on each; `pytest.fail`
(modelled as an error carrying the fixture's filename) aborts the loop at
the first payload that raises or whose result is not a dict containing
`summary`. -/
def test_all_payloads_process_successfully :
    List (String × Json) → Except String Unit
  | [] => .ok ()
  | (filename, payload) :: rest =>
    match Detail.main payload (.obj []) with
    | .error _ => .error filename
    | .ok result =>
      if isDict result && hasKey result summaryKey then
        test_all_payloads_process_successfully rest
      else .error filename

/-- `TestIntegrationWithDetail.test_display_works_with_detail_output`:
for each payload (its `test_payloads` fixture drops the filenames), run the
detail mapper, splice the result into the payload's `detail` key
(`{**payload, 'detail': mapped}`), run the display mapper and check the
structural assertions; the first failure aborts the loop with a message
that names no fixture. -/
def test_display_works_with_detail_output :
    List Json → Json → Except String Unit
  | [], _ => .ok ()
  | payload :: rest, attestation =>
    match Detail.main payload (.obj []) with
    | .error _ => .error ("detail mapper raised")
    | .ok mapped =>
      match payload with
      | .obj kvs =>
        match Display.main (.obj (setKey kvs detailKey mapped))
            attestation (.obj []) with
        | .error _ => .error ("Display mapper failed with detail output")
        | .ok r =>
          if isDict r && hasKey r descriptionKey && hasKey r tagKey then
            test_display_works_with_detail_output rest attestation
          else .error ("Display mapper failed with detail output")
      | _ => .error ("mapping unpacking failed")

/-- Python `"\n".join(parts)`. -/
def joinNL : List String → String
  | [] => ""
  | [s] => s
  | s :: rest => s ++ "\n" ++ joinNL rest

/-- The key iteration set of the dict branch of `json_diff`:
`set(obj1.keys()) | set(obj2.keys())`, iterated here with duplicates
removed (Python set iteration order is unspecified). -/
def allKeys (kvs1 kvs2 : List (String × Json)) : List String :=
  (kvs1.map Prod.fst ++ kvs2.map Prod.fst).dedup

/-- `f"{path}: Type mismatch {t1} vs {t2}"`. -/
def typeMismatchMsg (path t1 t2 : String) : String :=
  path ++ (": Type mismatch " ++ (t1 ++ (" vs " ++ t2)))

/-- `f"{path}: Value mismatch {r1!r} vs {r2!r}"`. -/
def valueMismatchMsg (path r1 r2 : String) : String :=
  path ++ (": Value mismatch " ++ (r1 ++ (" vs " ++ r2)))

/-- `f"{path}: List length mismatch {n1} vs {n2}"`. -/
def lenMismatchMsg (path : String) (n1 n2 : Nat) : String :=
  path ++ (": List length mismatch " ++ (toString n1 ++ (" vs " ++ toString n2)))

/-- `f"{path}.{key}: Missing in first object"`. -/
def missingFirstMsg (path k : String) : String :=
  path ++ ("." ++ (k ++ ": Missing in first object"))

/-- `f"{path}.{key}: Missing in second object"`. -/
def missingSecondMsg (path k : String) : String :=
  path ++ ("." ++ (k ++ ": Missing in second object"))

theorem sizeOf_lookup {kvs : List (String × Json)} {k : String} {v : Json}
    (h : kvs.lookup k = some v) : sizeOf v < sizeOf kvs := by
  induction kvs with
  | nil => simp [List.lookup] at h
  | cons hd tl ih =>
    obtain ⟨k1, v1⟩ := hd
    rw [List.lookup] at h
    by_cases hk : k == k1
    · simp [hk] at h
      subst h
      simp
      omega
    · simp [hk] at h
      have := ih h
      simp
      omega

mutual
/-- The `_diff(obj1, obj2, path)` helper returned by the `json_diff`
fixture of `conftest.py`: a type mismatch, list length mismatch or scalar
mismatch yields a one-line message; dicts are compared over the union of
their key sets and lists element-wise, joining the non-empty sub-diffs
with newlines. -/
def json_diff : Json → Json → String → String
  | .null, .null, _ => ""
  | .bool a, .bool b, path =>
    if a = b then ("")
    else valueMismatchMsg path (pyRepr (.bool a)) (pyRepr (.bool b))
  | .num a, .num b, path =>
    if a = b then ("")
    else valueMismatchMsg path (pyRepr (.num a)) (pyRepr (.num b))
  | .str a, .str b, path =>
    if a = b then ("")
    else valueMismatchMsg path (pyRepr (.str a)) (pyRepr (.str b))
  | .arr xs, .arr ys, path =>
    if xs.length = ys.length then joinNL (json_diffList xs ys path 0)
    else lenMismatchMsg path xs.length ys.length
  | .obj kvs1, .obj kvs2, path =>
    joinNL (json_diffKeys (allKeys kvs1 kvs2) kvs1 kvs2 path)
  | x, y, path => typeMismatchMsg path (typeName x) (typeName y)
termination_by x y path => (sizeOf x + sizeOf y, 0)

/-- The list branch of `_diff`: `zip` the two lists (of equal length at
every call site), collect the non-empty element diffs. -/
def json_diffList : List Json → List Json → String → Nat → List String
  | [], _, _, _ => []
  | _ :: _, [], _, _ => []
  | x :: xs, y :: ys, path, i =>
    let d := json_diff x y (path ++ ("[" ++ (toString i ++ "]")))
    let rest := json_diffList xs ys path (i + 1)
    if d = "" then rest else d :: rest
termination_by xs ys path i => (sizeOf xs + sizeOf ys, 0)

/-- The dict branch of `_diff`: for each key of the union, report a key
missing on either side, else collect the non-empty per-key sub-diff. -/
def json_diffKeys :
    List String → List (String × Json) → List (String × Json) → String →
    List String
  | [], _, _, _ => []
  | k :: ks, kvs1, kvs2, path =>
    let rest := json_diffKeys ks kvs1 kvs2 path
    match h1 : kvs1.lookup k, h2 : kvs2.lookup k with
    | none, _ => missingFirstMsg path k :: rest
    | some _, none => missingSecondMsg path k :: rest
    | some v1, some v2 =>
      let d := json_diff v1 v2 (path ++ ("." ++ k))
      if d = "" then rest else d :: rest
termination_by ks kvs1 kvs2 path => (sizeOf kvs1 + sizeOf kvs2, ks.length + 1)
decreasing_by
  all_goals simp_wf
  all_goals
    first
      | (apply Prod.Lex.right; omega)
      | (apply Prod.Lex.left
         have e1 := sizeOf_lookup h1
         have e2 := sizeOf_lookup h2
         omega)
end


mutual
/-- Structural equality of two JSON values: same type at every position,
same key sets in mappings with equal values per key, same lengths and
element-wise equal sequences, and equal scalars.  This is the notion of
equality against which the emptiness of `json_diff` is measured. -/
def structEq : Json → Json → Bool
  | .null, .null => true
  | .bool a, .bool b => a == b
  | .num a, .num b => a == b
  | .str a, .str b => a == b
  | .arr xs, .arr ys => xs.length == ys.length && structEqList xs ys
  | .obj kvs1, .obj kvs2 => structEqKeys (allKeys kvs1 kvs2) kvs1 kvs2
  | _, _ => false
termination_by x y => (sizeOf x + sizeOf y, 0)

/-- Element-wise structural equality of two sequences (compared only up to
the shorter length; the caller has already checked the lengths). -/
def structEqList : List Json → List Json → Bool
  | [], _ => true
  | _ :: _, [] => true
  | x :: xs, y :: ys => structEq x y && structEqList xs ys
termination_by xs ys => (sizeOf xs + sizeOf ys, 0)

/-- Per-key structural equality of two sets of dict bindings over a key
list: each key must be bound on both sides, to structurally equal values. -/
def structEqKeys :
    List String → List (String × Json) → List (String × Json) → Bool
  | [], _, _ => true
  | k :: ks, kvs1, kvs2 =>
    match h1 : kvs1.lookup k, h2 : kvs2.lookup k with
    | none, _ => false
    | some _, none => false
    | some v1, some v2 => structEq v1 v2 && structEqKeys ks kvs1 kvs2
termination_by ks kvs1 kvs2 => (sizeOf kvs1 + sizeOf kvs2, ks.length + 1)
decreasing_by
  all_goals simp_wf
  all_goals
    first
      | (apply Prod.Lex.right; omega)
      | (apply Prod.Lex.left
         have e1 := sizeOf_lookup h1
         have e2 := sizeOf_lookup h2
         omega)
end

mutual
/-- Two values differ only in numeric fields: identical shape, keys and
non-numeric leaves, while corresponding number leaves may differ. -/
def numOnlyDiff : Json → Json → Bool
  | .num _, .num _ => true
  | .null, .null => true
  | .bool a, .bool b => a == b
  | .str a, .str b => a == b
  | .arr xs, .arr ys => numOnlyDiffList xs ys
  | .obj kvs1, .obj kvs2 => numOnlyDiffObj kvs1 kvs2
  | _, _ => false

def numOnlyDiffList : List Json → List Json → Bool
  | [], [] => true
  | x :: xs, y :: ys => numOnlyDiff x y && numOnlyDiffList xs ys
  | _, _ => false

def numOnlyDiffObj : List (String × Json) → List (String × Json) → Bool
  | [], [] => true
  | (k1, v1) :: r1, (k2, v2) :: r2 =>
    k1 == k2 && numOnlyDiff v1 v2 && numOnlyDiffObj r1 r2
  | _, _ => false
end

theorem append_ne_empty_right (s t : String) (h : t ≠ "") : s ++ t ≠ "" := by
  intro he
  have hd : s.data ++ t.data = ([] : List Char) := congrArg String.data he
  exact h (String.ext (List.append_eq_nil.mp hd).2)

theorem append_ne_empty_left (s t : String) (h : s ≠ "") : s ++ t ≠ "" := by
  intro he
  have hd : s.data ++ t.data = ([] : List Char) := congrArg String.data he
  exact h (String.ext (List.append_eq_nil.mp hd).1)

theorem typeMismatchMsg_ne (path t1 t2 : String) : typeMismatchMsg path t1 t2 ≠ "" := by
  unfold typeMismatchMsg
  exact append_ne_empty_right _ _ (append_ne_empty_left _ _ (by decide))

theorem valueMismatchMsg_ne (path r1 r2 : String) : valueMismatchMsg path r1 r2 ≠ "" := by
  unfold valueMismatchMsg
  exact append_ne_empty_right _ _ (append_ne_empty_left _ _ (by decide))

theorem lenMismatchMsg_ne (path : String) (n1 n2 : Nat) : lenMismatchMsg path n1 n2 ≠ "" := by
  unfold lenMismatchMsg
  exact append_ne_empty_right _ _ (append_ne_empty_left _ _ (by decide))

theorem missingFirstMsg_ne (path k : String) : missingFirstMsg path k ≠ "" := by
  unfold missingFirstMsg
  exact append_ne_empty_right _ _ (append_ne_empty_left _ _ (by decide))

theorem missingSecondMsg_ne (path k : String) : missingSecondMsg path k ≠ "" := by
  unfold missingSecondMsg
  exact append_ne_empty_right _ _ (append_ne_empty_left _ _ (by decide))

/-- `"\n".join(parts)` is empty exactly when there are no parts, provided
every part is itself non-empty. -/
theorem joinNL_eq_empty_iff (l : List String) (h : ∀ s ∈ l, s ≠ "") :
    joinNL l = "" ↔ l = [] := by
  cases l with
  | nil => simp [joinNL]
  | cons s rest =>
    cases rest with
    | nil =>
      simp only [joinNL]
      constructor
      · intro hs
        exact absurd hs (h s (by simp))
      · intro hc
        cases hc
    | cons t r =>
      simp only [joinNL]
      constructor
      · intro hs
        exact absurd hs
          (append_ne_empty_left _ _ (append_ne_empty_right _ _ (by decide)))
      · intro hc
        cases hc

theorem json_diffKeys_cons_missing1 (k : String) (ks : List String)
    (kvs1 kvs2 : List (String × Json)) (path : String)
    (e1 : kvs1.lookup k = none) :
    json_diffKeys (k :: ks) kvs1 kvs2 path =
      missingFirstMsg path k :: json_diffKeys ks kvs1 kvs2 path := by
  rw [json_diffKeys]
  split
  all_goals simp_all

theorem json_diffKeys_cons_missing2 (k : String) (ks : List String)
    (kvs1 kvs2 : List (String × Json)) (path : String) (v1 : Json)
    (e1 : kvs1.lookup k = some v1) (e2 : kvs2.lookup k = none) :
    json_diffKeys (k :: ks) kvs1 kvs2 path =
      missingSecondMsg path k :: json_diffKeys ks kvs1 kvs2 path := by
  rw [json_diffKeys]
  split
  all_goals simp_all

theorem json_diffKeys_cons_some (k : String) (ks : List String)
    (kvs1 kvs2 : List (String × Json)) (path : String) (v1 v2 : Json)
    (e1 : kvs1.lookup k = some v1) (e2 : kvs2.lookup k = some v2) :
    json_diffKeys (k :: ks) kvs1 kvs2 path =
      (if json_diff v1 v2 (path ++ ("." ++ k)) = ""
       then json_diffKeys ks kvs1 kvs2 path
       else json_diff v1 v2 (path ++ ("." ++ k)) ::
         json_diffKeys ks kvs1 kvs2 path) := by
  rw [json_diffKeys]
  split
  all_goals simp_all

theorem structEqKeys_cons_missing1 (k : String) (ks : List String)
    (kvs1 kvs2 : List (String × Json))
    (e1 : kvs1.lookup k = none) :
    structEqKeys (k :: ks) kvs1 kvs2 = false := by
  rw [structEqKeys]
  split
  all_goals simp_all

theorem structEqKeys_cons_missing2 (k : String) (ks : List String)
    (kvs1 kvs2 : List (String × Json)) (v1 : Json)
    (e1 : kvs1.lookup k = some v1) (e2 : kvs2.lookup k = none) :
    structEqKeys (k :: ks) kvs1 kvs2 = false := by
  rw [structEqKeys]
  split
  all_goals simp_all

theorem structEqKeys_cons_some (k : String) (ks : List String)
    (kvs1 kvs2 : List (String × Json)) (v1 v2 : Json)
    (e1 : kvs1.lookup k = some v1) (e2 : kvs2.lookup k = some v2) :
    structEqKeys (k :: ks) kvs1 kvs2 =
      (structEq v1 v2 && structEqKeys ks kvs1 kvs2) := by
  rw [structEqKeys]
  split
  all_goals simp_all

theorem json_diffList_mem_ne (xs : List Json) :
    ∀ (ys : List Json) (path : String) (i : Nat) (s : String),
      s ∈ json_diffList xs ys path i → s ≠ "" := by
  induction xs with
  | nil =>
    intro ys path i s hs
    rw [json_diffList] at hs
    simp at hs
  | cons x xs ih =>
    intro ys path i s hs
    cases ys with
    | nil =>
      rw [json_diffList] at hs
      simp at hs
    | cons y ys =>
      simp only [json_diffList] at hs
      by_cases hd : json_diff x y (path ++ ("[" ++ (toString i ++ "]"))) = ""
      · rw [if_pos hd] at hs
        exact ih ys path (i + 1) s hs
      · rw [if_neg hd] at hs
        rcases List.mem_cons.mp hs with h | h
        · rw [h]; exact hd
        · exact ih ys path (i + 1) s h

theorem json_diffKeys_mem_ne (ks : List String) :
    ∀ (kvs1 kvs2 : List (String × Json)) (path : String) (s : String),
      s ∈ json_diffKeys ks kvs1 kvs2 path → s ≠ "" := by
  induction ks with
  | nil =>
    intro kvs1 kvs2 path s hs
    rw [json_diffKeys] at hs
    simp at hs
  | cons k ks ih =>
    intro kvs1 kvs2 path s hs
    cases e1 : List.lookup k kvs1 with
    | none =>
      rw [json_diffKeys_cons_missing1 k ks kvs1 kvs2 path e1] at hs
      rcases List.mem_cons.mp hs with h | h
      · rw [h]; exact missingFirstMsg_ne path k
      · exact ih kvs1 kvs2 path s h
    | some v1 =>
      cases e2 : List.lookup k kvs2 with
      | none =>
        rw [json_diffKeys_cons_missing2 k ks kvs1 kvs2 path v1 e1 e2] at hs
        rcases List.mem_cons.mp hs with h | h
        · rw [h]; exact missingSecondMsg_ne path k
        · exact ih kvs1 kvs2 path s h
      | some v2 =>
        rw [json_diffKeys_cons_some k ks kvs1 kvs2 path v1 v2 e1 e2] at hs
        by_cases hd : json_diff v1 v2 (path ++ ("." ++ k)) = ""
        · rw [if_pos hd] at hs
          exact ih kvs1 kvs2 path s hs
        · rw [if_neg hd] at hs
          rcases List.mem_cons.mp hs with h | h
          · rw [h]; exact hd
          · exact ih kvs1 kvs2 path s h

mutual
/-- `_diff` returns the empty string exactly when its arguments are
structurally equal. -/
theorem json_diff_empty_iff (x y : Json) (path : String) :
    json_diff x y path = "" ↔ structEq x y = true := by
  cases x <;> cases y <;>
    first
      | (simp [json_diff, structEq, typeMismatchMsg_ne]; done)
      | (rename_i a b
         simp only [json_diff, structEq]
         by_cases h : a = b
         · simp [h]
         · simp [h, valueMismatchMsg_ne]
         )
      | (rename_i xs ys
         simp only [json_diff, structEq]
         by_cases h : xs.length = ys.length
         · rw [if_pos h, json_diffList_empty_iff xs ys path 0]
           simp [h]
         · rw [if_neg h]
           simp [h, lenMismatchMsg_ne]
         )
      | (rename_i kvs1 kvs2
         simp only [json_diff, structEq]
         exact json_diffKeys_empty_iff (allKeys kvs1 kvs2) kvs1 kvs2 path)
termination_by (sizeOf x + sizeOf y, 0)

/-- The newline-joined element diffs of two sequences are empty exactly
when the sequences are element-wise structurally equal. -/
theorem json_diffList_empty_iff (xs ys : List Json) (path : String) (i : Nat) :
    joinNL (json_diffList xs ys path i) = "" ↔ structEqList xs ys = true := by
  cases xs with
  | nil =>
    rw [json_diffList, structEqList]
    simp [joinNL]
  | cons x xs =>
    cases ys with
    | nil =>
      rw [json_diffList, structEqList]
      simp [joinNL]
    | cons y ys =>
      simp only [json_diffList, structEqList]
      by_cases hd : json_diff x y (path ++ ("[" ++ (toString i ++ "]"))) = ""
      · rw [if_pos hd, json_diffList_empty_iff xs ys path (i + 1)]
        have hx : structEq x y = true := (json_diff_empty_iff x y _).mp hd
        simp [hx]
      · rw [if_neg hd]
        have hx : structEq x y = false := by
          cases hsx : structEq x y
          · rfl
          · exact absurd ((json_diff_empty_iff x y _).mpr hsx) hd
        constructor
        · intro hj
          have hmem : ∀ s ∈ json_diff x y (path ++ ("[" ++ (toString i ++ "]"))) ::
              json_diffList xs ys path (i + 1), s ≠ "" := by
            intro s hs
            rcases List.mem_cons.mp hs with h | h
            · rw [h]; exact hd
            · exact json_diffList_mem_ne xs ys path (i + 1) s h
          cases (joinNL_eq_empty_iff _ hmem).mp hj
        · intro hc
          rw [hx] at hc
          simp at hc
termination_by (sizeOf xs + sizeOf ys, 0)

/-- The newline-joined per-key diffs of two dicts over a key list are
empty exactly when the dicts agree structurally on every listed key. -/
theorem json_diffKeys_empty_iff (ks : List String)
    (kvs1 kvs2 : List (String × Json)) (path : String) :
    joinNL (json_diffKeys ks kvs1 kvs2 path) = "" ↔
      structEqKeys ks kvs1 kvs2 = true := by
  cases ks with
  | nil =>
    rw [json_diffKeys, structEqKeys]
    simp [joinNL]
  | cons k ks =>
    cases e1 : List.lookup k kvs1 with
    | none =>
      rw [json_diffKeys_cons_missing1 k ks kvs1 kvs2 path e1,
          structEqKeys_cons_missing1 k ks kvs1 kvs2 e1]
      constructor
      · intro hj
        have hmem : ∀ s ∈ missingFirstMsg path k ::
            json_diffKeys ks kvs1 kvs2 path, s ≠ "" := by
          intro s hs
          rcases List.mem_cons.mp hs with h | h
          · rw [h]; exact missingFirstMsg_ne path k
          · exact json_diffKeys_mem_ne ks kvs1 kvs2 path s h
        cases (joinNL_eq_empty_iff _ hmem).mp hj
      · intro hc
        simp at hc
    | some v1 =>
      cases e2 : List.lookup k kvs2 with
      | none =>
        rw [json_diffKeys_cons_missing2 k ks kvs1 kvs2 path v1 e1 e2,
            structEqKeys_cons_missing2 k ks kvs1 kvs2 v1 e1 e2]
        constructor
        · intro hj
          have hmem : ∀ s ∈ missingSecondMsg path k ::
              json_diffKeys ks kvs1 kvs2 path, s ≠ "" := by
            intro s hs
            rcases List.mem_cons.mp hs with h | h
            · rw [h]; exact missingSecondMsg_ne path k
            · exact json_diffKeys_mem_ne ks kvs1 kvs2 path s h
          cases (joinNL_eq_empty_iff _ hmem).mp hj
        · intro hc
          simp at hc
      | some v2 =>
        rw [json_diffKeys_cons_some k ks kvs1 kvs2 path v1 v2 e1 e2,
            structEqKeys_cons_some k ks kvs1 kvs2 v1 v2 e1 e2]
        by_cases hd : json_diff v1 v2 (path ++ ("." ++ k)) = ""
        · rw [if_pos hd, json_diffKeys_empty_iff ks kvs1 kvs2 path]
          have hv : structEq v1 v2 = true := (json_diff_empty_iff v1 v2 _).mp hd
          simp [hv]
        · rw [if_neg hd]
          have hv : structEq v1 v2 = false := by
            cases hsv : structEq v1 v2
            · rfl
            · exact absurd ((json_diff_empty_iff v1 v2 _).mpr hsv) hd
          constructor
          · intro hj
            have hmem : ∀ s ∈ json_diff v1 v2 (path ++ ("." ++ k)) ::
                json_diffKeys ks kvs1 kvs2 path, s ≠ "" := by
              intro s hs
              rcases List.mem_cons.mp hs with h | h
              · rw [h]; exact hd
              · exact json_diffKeys_mem_ne ks kvs1 kvs2 path s h
            cases (joinNL_eq_empty_iff _ hmem).mp hj
          · intro hc
            rw [hv] at hc
            simp at hc
termination_by (sizeOf kvs1 + sizeOf kvs2, ks.length + 1)
decreasing_by
  all_goals simp_wf
  all_goals
    first
      | (apply Prod.Lex.right; omega)
      | (apply Prod.Lex.left
         have d1 := sizeOf_lookup e1
         have d2 := sizeOf_lookup e2
         omega)
end

theorem lookup_some_of_mem_fst {kvs : List (String × Json)} {k : String}
    (h : k ∈ kvs.map Prod.fst) : ∃ v, List.lookup k kvs = some v := by
  induction kvs with
  | nil => simp at h
  | cons hd tl ih =>
    obtain ⟨k1, v1⟩ := hd
    rw [List.lookup]
    by_cases e : k == k1
    · exact ⟨v1, by simp [e]⟩
    · simp only [List.map, List.mem_cons] at h
      rcases h with h | h
      · exact absurd (by simp [h]) e
      · simpa [e] using ih h

mutual
/-- Structural equality is reflexive. -/
theorem structEq_refl (x : Json) : structEq x x = true := by
  cases x with
  | null => rw [structEq]
  | bool b => rw [structEq]; simp
  | num n => rw [structEq]; simp
  | str s => rw [structEq]; simp
  | arr xs =>
    rw [structEq]
    simp [structEqList_refl xs]
  | obj kvs =>
    rw [structEq]
    exact structEqKeys_refl (allKeys kvs kvs) kvs
      (fun k hk => by simpa [allKeys] using hk)
termination_by (sizeOf x + sizeOf x, 0)

theorem structEqList_refl (xs : List Json) : structEqList xs xs = true := by
  cases xs with
  | nil => rw [structEqList]
  | cons x xs =>
    rw [structEqList]
    simp [structEq_refl x, structEqList_refl xs]
termination_by (sizeOf xs + sizeOf xs, 0)

theorem structEqKeys_refl (ks : List String) (kvs : List (String × Json)) :
    (∀ k ∈ ks, k ∈ kvs.map Prod.fst) → structEqKeys ks kvs kvs = true := by
  intro h
  cases ks with
  | nil => rw [structEqKeys]
  | cons k ks =>
    obtain ⟨v, hv⟩ := lookup_some_of_mem_fst (h k (by simp))
    rw [structEqKeys_cons_some k ks kvs kvs v v hv hv]
    simp [structEq_refl v, structEqKeys_refl ks kvs (fun k2 hk2 => h k2 (by simp [hk2]))]
termination_by (sizeOf kvs + sizeOf kvs, ks.length + 1)
decreasing_by
  all_goals subst_vars
  all_goals simp only [List.length_cons]
  all_goals
    first
      | (apply Prod.Lex.right; omega)
      | (apply Prod.Lex.left
         have d1 := sizeOf_lookup hv
         omega)
end

/-- The attribute of a mapper's successful dict result at a key. -/
def resAttr (r : Except PyErr Json) (k : String) : Option Json :=
  match r with
  | .ok (.obj kvs) => kvs.lookup k
  | _ => none

/-- A successful display result is always the literal two-key mapping
with the constant description and some tag string. -/
theorem display_ok_shape (o a c d : Json) (h : Display.main o a c = .ok d) :
    ∃ t : String,
      d = .obj [(descriptionKey, .str displayDescription), (tagKey, .str t)] := by
  cases o with
  | obj kvs =>
    rw [Display.main] at h
    simp only [dictGet] at h
    cases hv : (kvs.lookup detailKey).getD (.obj []) with
    | obj dkvs =>
      rw [hv] at h
      refine ⟨"Value: " ++ pyStr ((dkvs.lookup passedKey).getD (.bool false)), ?_⟩
      exact (Except.ok.injEq _ _).mp h.symm
    | null => rw [hv] at h; cases h
    | bool b => rw [hv] at h; cases h
    | num n => rw [hv] at h; cases h
    | str s => rw [hv] at h; cases h
    | arr xs => rw [hv] at h; cases h
  | null => rw [Display.main] at h; cases h
  | bool b => rw [Display.main] at h; cases h
  | num n => rw [Display.main] at h; cases h
  | str s => rw [Display.main] at h; cases h
  | arr xs => rw [Display.main] at h; cases h

/-- C1 counterexample: for the occurrence mapping whose `detail` value is
null, the Detail Mapper raises an `AttributeError` — it does not return
the mapping with `passed` false that the claim's default branch demands
for every occurrence mapping. -/
theorem C1_counterexample :
    Detail.main (.obj [(detailKey, .null)]) (.obj [])
        = .error (.attributeError (typeName .null)) ∧
      Detail.main (.obj [(detailKey, .null)]) (.obj [])
        ≠ .ok (.obj [(passedKey, .bool false)]) :=
  ⟨rfl, fun h => Except.noConfusion h⟩

/-- C1 (amended): for every occurrence mapping whose `detail` key is
absent, or maps to a mapping, the Detail Mapper returns exactly the
one-key mapping `passed`, whose value is the `check_passed` value when
present and `false` otherwise; when `detail` is present but not a
mapping, the mapper raises instead of returning. -/
theorem C1_detail_output (kvs : List (String × Json)) (c : Json) :
    (kvs.lookup detailKey = none →
      Detail.main (.obj kvs) c = .ok (.obj [(passedKey, .bool false)])) ∧
    (∀ dkvs : List (String × Json), kvs.lookup detailKey = some (.obj dkvs) →
      Detail.main (.obj kvs) c =
        .ok (.obj [(passedKey,
          (dkvs.lookup checkPassedKey).getD (.bool false))])) ∧
    (∀ d : Json, kvs.lookup detailKey = some d → isDict d = false →
      ∃ e : PyErr, Detail.main (.obj kvs) c = .error e) := by
  refine ⟨?_, ?_, ?_⟩
  · intro h
    simp [Detail.main, dictGet, h]
  · intro dkvs h
    simp [Detail.main, dictGet, h]
  · intro d h hnd
    refine ⟨.attributeError (typeName d), ?_⟩
    cases d with
    | obj dkvs => simp [isDict] at hnd
    | null => simp [Detail.main, dictGet, h]
    | bool b => simp [Detail.main, dictGet, h]
    | num n => simp [Detail.main, dictGet, h]
    | str s => simp [Detail.main, dictGet, h]
    | arr xs => simp [Detail.main, dictGet, h]

/-- C1 witness: the amended theorem applied to the two concrete scenarios
of the spec (`check_passed` true, and an empty detail mapping). -/
theorem C1_witness :
    Detail.main (.obj [(detailKey, .obj [(checkPassedKey, .bool true)])]) (.obj [])
        = .ok (.obj [(passedKey, .bool true)]) ∧
      Detail.main (.obj [(detailKey, .obj [])]) (.obj [])
        = .ok (.obj [(passedKey, .bool false)]) :=
  ⟨((C1_detail_output [(detailKey, .obj [(checkPassedKey, .bool true)])]
      (.obj [])).2.1 [(checkPassedKey, .bool true)] rfl).trans (by rfl),
   ((C1_detail_output [(detailKey, .obj [])]
      (.obj [])).2.1 [] rfl).trans (by rfl)⟩

/-- C2: for every occurrence mapping whose `detail` is a mapping, every
attestation and every context, the Display Mapper returns a mapping with
the keys `description` and `tag`, both non-empty strings: the description
is the constant control text, and the tag is "Value: True" when
`detail.passed` is true and "Value: False" when it is false or absent. -/
theorem C2_display_output (kvs dkvs : List (String × Json)) (a c : Json)
    (hd : kvs.lookup detailKey = some (.obj dkvs)) :
    ∃ t : String,
      Display.main (.obj kvs) a c =
        .ok (.obj [(descriptionKey, .str displayDescription),
                   (tagKey, .str t)]) ∧
      displayDescription =
        "A simple boolean check - the most minimal control possible" ∧
      displayDescription ≠ "" ∧
      t ≠ "" ∧
      (dkvs.lookup passedKey = some (.bool true) → t = "Value: True") ∧
      (dkvs.lookup passedKey = some (.bool false) → t = "Value: False") ∧
      (dkvs.lookup passedKey = none → t = "Value: False") := by
  refine ⟨"Value: " ++ pyStr ((dkvs.lookup passedKey).getD (.bool false)),
    ?_, rfl, by decide, append_ne_empty_left _ _ (by decide), ?_, ?_, ?_⟩
  · simp [Display.main, dictGet, hd]
  · intro h
    rw [h]
    simp [pyStr, pyRepr]
  · intro h
    rw [h]
    simp [pyStr, pyRepr]
  · intro h
    rw [h]
    simp [pyStr, pyRepr]

/-- C2 witness: the theorem applied to the mapped detail of scenario 2
(`passed` true), an empty attestation and an empty context. -/
theorem C2_witness :
    ∃ t : String,
      Display.main (.obj [(detailKey, .obj [(passedKey, .bool true)])])
          (.obj []) (.obj []) =
        .ok (.obj [(descriptionKey, .str displayDescription),
                   (tagKey, .str t)]) ∧
      displayDescription =
        "A simple boolean check - the most minimal control possible" ∧
      displayDescription ≠ "" ∧
      t ≠ "" ∧
      ([(passedKey, Json.bool true)].lookup passedKey = some (.bool true) →
        t = "Value: True") ∧
      ([(passedKey, Json.bool true)].lookup passedKey = some (.bool false) →
        t = "Value: False") ∧
      ([(passedKey, Json.bool true)].lookup passedKey = none →
        t = "Value: False") :=
  C2_display_output [(detailKey, .obj [(passedKey, .bool true)])]
    [(passedKey, .bool true)] (.obj []) (.obj []) rfl

/-- C3 counterexample: the occurrence mapping whose `detail` value is
null is not the wholly-null occurrence, yet the Detail Mapper fails on
it — refuting the claim that only a wholly-null occurrence may fail. -/
theorem C3_counterexample :
    Json.obj [(detailKey, .null)] ≠ .null ∧
      Detail.main (.obj [(detailKey, .null)]) (.obj [])
        = .error (.attributeError (typeName .null)) :=
  ⟨fun h => Json.noConfusion h, rfl⟩

/-- C3 (amended): the Detail Mapper returns a mapping without raising on
each of the three listed malformed occurrences (empty `detail`, missing
`detail`, null `asset` with null `detail.scan`) under an empty context; a
wholly-null occurrence fails immediately with an attribute error; and an
occurrence whose `detail` value is present but not a mapping likewise
fails with an attribute error. -/
theorem C3_robustness :
    Detail.main empty_occurrence (.obj [])
        = .ok (.obj [(passedKey, .bool false)]) ∧
      Detail.main occurrence_no_detail (.obj [])
        = .ok (.obj [(passedKey, .bool false)]) ∧
      Detail.main malformed_occurrence (.obj [])
        = .ok (.obj [(passedKey, .bool false)]) ∧
      Detail.main .null (.obj [])
        = .error (.attributeError (typeName .null)) :=
  ⟨rfl, rfl, rfl, rfl⟩

/-- C4 counterexample: two occurrences whose mapped detail values differ
(`passed` is the boolean true in one and the string "True" in the other)
receive identical tags from the Display Mapper, refuting "distinct detail
values never collapse to identical tags". -/
theorem C4_counterexample :
    structEq (.obj [(passedKey, .bool true)])
        (.obj [(passedKey, .str ("True"))]) = false ∧
      resAttr (Display.main (.obj [(detailKey, .obj [(passedKey, .bool true)])])
          (.obj []) (.obj [])) tagKey
        = resAttr (Display.main
            (.obj [(detailKey, .obj [(passedKey, .str ("True"))])])
            (.obj []) (.obj [])) tagKey ∧
      resAttr (Display.main (.obj [(detailKey, .obj [(passedKey, .bool true)])])
          (.obj []) (.obj [])) tagKey = some (.str ("Value: True")) := by
  refine ⟨?_, ?_, ?_⟩
  · have hk : allKeys [(passedKey, Json.bool true)]
        [(passedKey, Json.str ("True"))] = [passedKey] := by
      simp [allKeys]
    rw [structEq, hk,
      structEqKeys_cons_some passedKey [] [(passedKey, .bool true)]
        [(passedKey, .str ("True"))] (.bool true) (.str ("True")) rfl rfl]
    simp [structEq]
  · simp [Display.main, dictGet, resAttr, pyStr, pyRepr]
  · simp [Display.main, dictGet, resAttr, pyStr, pyRepr, List.lookup,
      tagKey, descriptionKey]

/-- C4 (amended): the tag varies with the boolean result value: two
occurrences whose `detail.passed` values are distinct booleans receive
distinct tags; in general two distinct mapped detail values can share a
tag (boolean true and the string "True" both render as "Value: True"). -/
theorem C4_tag_varies (kvs1 dkvs1 kvs2 dkvs2 : List (String × Json))
    (a1 c1 a2 c2 : Json) (b1 b2 : Bool)
    (h1 : kvs1.lookup detailKey = some (.obj dkvs1))
    (hp1 : dkvs1.lookup passedKey = some (.bool b1))
    (h2 : kvs2.lookup detailKey = some (.obj dkvs2))
    (hp2 : dkvs2.lookup passedKey = some (.bool b2))
    (hb : b1 ≠ b2) :
    resAttr (Display.main (.obj kvs1) a1 c1) tagKey ≠
      resAttr (Display.main (.obj kvs2) a2 c2) tagKey := by
  simp only [Display.main, dictGet, h1, h2, hp1, hp2, resAttr]
  cases b1 <;> cases b2 <;>
    simp_all [pyStr, pyRepr, List.lookup, tagKey, descriptionKey]

/-- C4 witness: the amended theorem applied to `passed` true versus
`passed` false, with empty attestations and contexts. -/
theorem C4_witness :
    resAttr (Display.main (.obj [(detailKey, .obj [(passedKey, .bool true)])])
        (.obj []) (.obj [])) tagKey ≠
      resAttr (Display.main (.obj [(detailKey, .obj [(passedKey, .bool false)])])
        (.obj []) (.obj [])) tagKey :=
  C4_tag_varies [(detailKey, .obj [(passedKey, .bool true)])]
    [(passedKey, .bool true)] [(detailKey, .obj [(passedKey, .bool false)])]
    [(passedKey, .bool false)] (.obj []) (.obj []) (.obj []) (.obj [])
    true false rfl rfl rfl rfl (by decide)

/-- C5: description stability: for two occurrences differing only in
numeric detail fields, on which the Display Mapper returns, the
`description` fields of the two results are identical — both are the
constant control description. -/
theorem C5_description_stable (o1 o2 a c d1 d2 : Json)
    (hdiff : numOnlyDiff o1 o2 = true)
    (h1 : Display.main o1 a c = .ok d1)
    (h2 : Display.main o2 a c = .ok d2) :
    resAttr (Display.main o1 a c) descriptionKey
        = resAttr (Display.main o2 a c) descriptionKey ∧
      resAttr (Display.main o1 a c) descriptionKey
        = some (.str displayDescription) := by
  obtain ⟨t1, ht1⟩ := display_ok_shape o1 a c d1 h1
  obtain ⟨t2, ht2⟩ := display_ok_shape o2 a c d2 h2
  rw [h1, h2, ht1, ht2]
  constructor <;> simp [resAttr, List.lookup, descriptionKey, tagKey]

/-- C5 witness: the theorem applied to the two occurrences of the
harness's `test_description_does_not_change` (summary totals 10 and 20),
with empty attestation and context. -/
theorem C5_witness :
    resAttr (Display.main
        (.obj [(detailKey, .obj [(summaryKey, .obj [("total", .num 10)])])])
        (.obj []) (.obj [])) descriptionKey
      = resAttr (Display.main
        (.obj [(detailKey, .obj [(summaryKey, .obj [("total", .num 20)])])])
        (.obj []) (.obj [])) descriptionKey ∧
    resAttr (Display.main
        (.obj [(detailKey, .obj [(summaryKey, .obj [("total", .num 10)])])])
        (.obj []) (.obj [])) descriptionKey
      = some (.str displayDescription) :=
  C5_description_stable
    (.obj [(detailKey, .obj [(summaryKey, .obj [("total", .num 10)])])])
    (.obj [(detailKey, .obj [(summaryKey, .obj [("total", .num 20)])])])
    (.obj []) (.obj [])
    (.obj [(descriptionKey, .str displayDescription),
           (tagKey, .str ("Value: " ++ pyStr (.bool false)))])
    (.obj [(descriptionKey, .str displayDescription),
           (tagKey, .str ("Value: " ++ pyStr (.bool false)))])
    (by simp [numOnlyDiff, numOnlyDiffObj]) rfl rfl

/-- C6: both mappers are deterministic: invoking either twice with
identical inputs yields identical outputs (the embedding of each mapper
is a pure function of its arguments; the source reads no global state,
clock or randomness). -/
theorem C6_determinism (o a c : Json) :
    Detail.main o c = Detail.main o c ∧
      Display.main o a c = Display.main o a c :=
  ⟨rfl, rfl⟩

/-- C7 counterexample: with two discovered fixtures that each fail the
corpus check (the quickstart detail output never contains `summary`), the
check's report is exactly the first fixture's name; run alone, the second
fixture fails as well, yet the two-fixture run never mentions it — the
report does not enumerate every distinct violation. -/
theorem C7_counterexample :
    test_all_payloads_process_successfully
        [("occ_case_1.json", sample_occurrence),
         ("occ_case_2.json", sample_occurrence)]
      = .error ("occ_case_1.json") ∧
    test_all_payloads_process_successfully
        [("occ_case_2.json", sample_occurrence)]
      = .error ("occ_case_2.json") ∧
    ("occ_case_1.json" : String) ≠ "occ_case_2.json" :=
  ⟨rfl, rfl, by decide⟩

/-- C7 (amended): the corpus and integration checks abort at the first
failing fixture: when the first discovered payload fails the corpus
check, the whole run reports exactly that fixture's name whatever the
remaining fixtures are; and when the first payload of the integration
check makes the detail mapper raise, the run stops with a message naming
no fixture at all. -/
theorem C7_first_failure_only (filename : String) (payload r : Json)
    (rest : List (String × Json)) (p2 a2 : Json) (rest2 : List Json)
    (e2 : PyErr)
    (h : Detail.main payload (.obj []) = .ok r)
    (hs : hasKey r summaryKey = false)
    (hp2 : Detail.main p2 (.obj []) = .error e2) :
    test_all_payloads_process_successfully ((filename, payload) :: rest)
        = .error filename ∧
      test_display_works_with_detail_output (p2 :: rest2) a2
        = .error ("detail mapper raised") := by
  constructor
  · simp [test_all_payloads_process_successfully, h, hs]
  · simp [test_display_works_with_detail_output, hp2]

/-- C7 witness: the amended theorem applied to two copies of the sample
occurrence (both of which fail the summary check) and, for the
integration part, a null first payload. -/
theorem C7_witness :
    test_all_payloads_process_successfully
        [("occ_case_1.json", sample_occurrence),
         ("occ_case_2.json", sample_occurrence)]
      = .error ("occ_case_1.json") ∧
    test_display_works_with_detail_output [.null, sample_occurrence] (.obj [])
      = .error ("detail mapper raised") :=
  C7_first_failure_only ("occ_case_1.json") sample_occurrence
    (.obj [(passedKey, .bool false)])
    [("occ_case_2.json", sample_occurrence)] .null (.obj [])
    [sample_occurrence] (.attributeError (typeName .null)) rfl rfl rfl

/-- C8: every successful detail-mapper result has exactly the single key
`passed` and never a `summary` key; consequently the harness's
summary-field structural check fails on the repository's own sample
occurrence. -/
theorem C8_no_summary_key (o c r : Json) (h : Detail.main o c = .ok r) :
    objKeys r = [passedKey] ∧ hasKey r summaryKey = false ∧
      summaryFieldCheck sample_occurrence = false := by
  have hr : ∃ v, r = .obj [(passedKey, v)] := by
    cases o with
    | obj kvs =>
      rw [Detail.main] at h
      simp only [dictGet] at h
      cases hv : (kvs.lookup detailKey).getD (.obj []) with
      | obj dkvs =>
        rw [hv] at h
        exact ⟨_, ((Except.ok.injEq _ _).mp h).symm⟩
      | null => rw [hv] at h; cases h
      | bool b => rw [hv] at h; cases h
      | num n => rw [hv] at h; cases h
      | str s => rw [hv] at h; cases h
      | arr xs => rw [hv] at h; cases h
    | null => rw [Detail.main] at h; cases h
    | bool b => rw [Detail.main] at h; cases h
    | num n => rw [Detail.main] at h; cases h
    | str s => rw [Detail.main] at h; cases h
    | arr xs => rw [Detail.main] at h; cases h
  obtain ⟨v, rfl⟩ := hr
  refine ⟨rfl, ?_, rfl⟩
  simp [hasKey, List.lookup, summaryKey, passedKey]

/-- C8 witness: the theorem applied to the sample occurrence. -/
theorem C8_witness :
    objKeys (.obj [(passedKey, .bool false)]) = [passedKey] ∧
      hasKey (.obj [(passedKey, .bool false)]) summaryKey = false ∧
      summaryFieldCheck sample_occurrence = false :=
  C8_no_summary_key sample_occurrence (.obj [])
    (.obj [(passedKey, .bool false)]) rfl

/-- C9: noninterference: the detail output depends only on the
occurrence, not the context, and the display output depends only on the
occurrence, not the attestation or context (in particular a pass versus
fail attestation cannot change the display output). -/
theorem C9_noninterference (o a1 a2 c1 c2 : Json) :
    Detail.main o c1 = Detail.main o c2 ∧
      Display.main o a1 c1 = Display.main o a2 c2 :=
  ⟨rfl, rfl⟩

/-- C10: the harness's `json_diff` helper returns the empty string
exactly when its two arguments are structurally equal (same type at every
position, same key sets in mappings, same lengths and element-wise equal
sequences, equal scalars); in particular the diff of any value against
itself is empty. -/
theorem C10_json_diff_spec (x y : Json) :
    (json_diff x y ("") = "" ↔ structEq x y = true) ∧ json_diff x x ("") = "" :=
  ⟨json_diff_empty_iff x y (""),
   (json_diff_empty_iff x x ("")).mpr (structEq_refl x)⟩
